import Mathlib

/-!
Shallow embedding of the constraint-solving core of the `loopation`
procedural-animation library: `Vector2D`, `Point`, `DistanceConstraint`,
`AngleConstraint`, `Chain` and `Fabric` (inverse-kinematics solver).

Numbers are modelled as real numbers; the in-place mutation of the
TypeScript classes becomes explicit state passing (`solve` returns the
updated object).  Point references held by constraints become either
point values (for `Chain` constraints, whose topology claims never
mutate points afterwards) or indices into the owning aggregate's point
list (for `Fabric`, whose solver mutates shared points through joints).
Optional / defaulted TypeScript parameters become `Option` arguments;
JavaScript's falsy test `x || d` on a number becomes a test against `0`.
Methods that `throw` return `Except`.
-/

namespace Loopation

/-- 2D vector value (`src/utils/Vector.ts`). -/
@[ext]
structure Vector2D where
  x : ℝ
  y : ℝ

/-- `Vector2D.clone`. -/
def Vector2D.clone (v : Vector2D) : Vector2D := ⟨v.x, v.y⟩

/-- `Vector2D.add` (returns the updated vector). -/
def Vector2D.add (v w : Vector2D) : Vector2D := ⟨v.x + w.x, v.y + w.y⟩

/-- `Vector2D.multiplyScalar`. -/
def Vector2D.multiplyScalar (v : Vector2D) (s : ℝ) : Vector2D := ⟨v.x * s, v.y * s⟩

/-- `Vector2D.distance`: Euclidean distance to another vector. -/
noncomputable def Vector2D.distance (v w : Vector2D) : ℝ :=
  Real.sqrt ((v.x - w.x) * (v.x - w.x) + (v.y - w.y) * (v.y - w.y))

/-- A particle (`src/core/Point.ts`). -/
@[ext]
structure Point where
  position : Vector2D
  prevPosition : Vector2D
  velocity : Vector2D
  bodySize : ℝ
  fixed : Bool
  mass : ℝ

/-- The `PointOptions` bag of the `Point` constructor. -/
structure PointOptions where
  bodySize : Option ℝ
  fixed : Option Bool
  mass : Option ℝ

/-- The `Point` constructor: `bodySize` and `mass` default to 1 on a falsy
value (`options.bodySize || 1`), `fixed` defaults to `false`. -/
noncomputable def Point.make (x y : ℝ) (options : PointOptions) : Point :=
  { position := ⟨x, y⟩
    prevPosition := ⟨x, y⟩
    velocity := ⟨0, 0⟩
    bodySize :=
      match options.bodySize with
      | none => 1
      | some b => if b = 0 then 1 else b
    fixed := options.fixed.getD false
    mass :=
      match options.mass with
      | none => 1
      | some m => if m = 0 then 1 else m }

/-- `PointOptions` with every field absent. -/
def PointOptions.none3 : PointOptions := ⟨none, none, none⟩

/-- `Point.update(dt, gravity)`: no-op when fixed; otherwise snapshot the
position, add `gravity * dt` to the velocity, add `velocity * dt` to the
position. -/
def Point.update (p : Point) (dt : ℝ) (gravity : Vector2D) : Point :=
  if p.fixed then p
  else
    let prevPosition := Vector2D.mk p.position.x p.position.y
    let velocity := p.velocity.add (gravity.clone.multiplyScalar dt)
    let position := p.position.add (velocity.clone.multiplyScalar dt)
    { p with prevPosition := prevPosition, velocity := velocity, position := position }

/-- A distance constraint (`src/constraints/DistanceConstraint.ts`), holding
its two point states. -/
@[ext]
structure DistanceConstraint where
  point1 : Point
  point2 : Point
  distance : ℝ
  stiffness : ℝ

/-- The `DistanceConstraint` constructor: a missing or falsy (zero) `distance`
defaults to the current separation of the two points. -/
noncomputable def DistanceConstraint.make (point1 point2 : Point) (distance : Option ℝ)
    (stiffness : ℝ) : DistanceConstraint :=
  { point1 := point1
    point2 := point2
    distance :=
      match distance with
      | none => point1.position.distance point2.position
      | some d => if d = 0 then point1.position.distance point2.position else d
    stiffness := stiffness }

/-- The current separation of a constraint's two points, as computed at the
top of `DistanceConstraint.solve`. -/
noncomputable def DistanceConstraint.currentDistance (c : DistanceConstraint) : ℝ :=
  let dx := c.point2.position.x - c.point1.position.x
  let dy := c.point2.position.y - c.point1.position.y
  Real.sqrt (dx * dx + dy * dy)

/-- `DistanceConstraint.solve()`: positional correction distributed over the
non-fixed points (split when both are free, doubled onto the single free
point otherwise), skipped entirely at zero current distance. -/
noncomputable def DistanceConstraint.solve (c : DistanceConstraint) : DistanceConstraint :=
  let dx := c.point2.position.x - c.point1.position.x
  let dy := c.point2.position.y - c.point1.position.y
  let currentDistance := Real.sqrt (dx * dx + dy * dy)
  if currentDistance = 0 then c
  else
    let difference := (c.distance - currentDistance) / currentDistance
    let offsetX := dx * difference * 0.5 * c.stiffness
    let offsetY := dy * difference * 0.5 * c.stiffness
    if !c.point1.fixed && !c.point2.fixed then
      { c with
          point1 := { c.point1 with
            position := ⟨c.point1.position.x - offsetX, c.point1.position.y - offsetY⟩ }
          point2 := { c.point2 with
            position := ⟨c.point2.position.x + offsetX, c.point2.position.y + offsetY⟩ } }
    else if !c.point1.fixed then
      { c with
          point1 := { c.point1 with
            position := ⟨c.point1.position.x - offsetX * 2, c.point1.position.y - offsetY * 2⟩ } }
    else if !c.point2.fixed then
      { c with
          point2 := { c.point2 with
            position := ⟨c.point2.position.x + offsetX * 2, c.point2.position.y + offsetY * 2⟩ } }
    else c

/-- An angle constraint (`src/constraints/AngleConstraint.ts`): the angle at
the pivot `point2` between the rays to `point1` and `point3` is kept inside
`[minAngle, maxAngle]`. -/
@[ext]
structure AngleConstraint where
  point1 : Point
  point2 : Point
  point3 : Point
  minAngle : ℝ
  maxAngle : ℝ
  stiffness : ℝ

/-- The `AngleConstraint` constructor: `minAngle` defaults to `0`, `maxAngle`
to `π`, `stiffness` to `0.5` (TypeScript default parameters, triggered only
by a missing argument). -/
noncomputable def AngleConstraint.make (point1 point2 point3 : Point)
    (minAngle maxAngle stiffness : Option ℝ) : AngleConstraint :=
  { point1 := point1
    point2 := point2
    point3 := point3
    minAngle := minAngle.getD 0
    maxAngle := maxAngle.getD Real.pi
    stiffness := stiffness.getD 0.5 }

/-- `AngleConstraint.calculateAngle()`: clamped-arccosine angle at the pivot,
`0` when either arm has zero length. -/
noncomputable def AngleConstraint.calculateAngle (c : AngleConstraint) : ℝ :=
  let ax := c.point1.position.x - c.point2.position.x
  let ay := c.point1.position.y - c.point2.position.y
  let bx := c.point3.position.x - c.point2.position.x
  let by' := c.point3.position.y - c.point2.position.y
  let magA := Real.sqrt (ax * ax + ay * ay)
  let magB := Real.sqrt (bx * bx + by' * by')
  if magA = 0 ∨ magB = 0 then 0
  else
    let dotProduct := ax * bx + ay * by'
    let cosAngle := dotProduct / (magA * magB)
    Real.arccos (max (-1) (min 1 cosAngle))

/-- The bound of the corridor that `AngleConstraint.solve` steers toward when
the current angle is outside `[minAngle, maxAngle]`. -/
noncomputable def AngleConstraint.targetAngle (c : AngleConstraint) : ℝ :=
  if c.calculateAngle < c.minAngle then c.minAngle else c.maxAngle

/-- Length of the pivot-to-`point1` arm, as computed inside
`AngleConstraint.solve`. -/
noncomputable def AngleConstraint.len1 (c : AngleConstraint) : ℝ :=
  let v1x := c.point1.position.x - c.point2.position.x
  let v1y := c.point1.position.y - c.point2.position.y
  Real.sqrt (v1x * v1x + v1y * v1y)

/-- Length of the pivot-to-`point3` arm, as computed inside
`AngleConstraint.solve`. -/
noncomputable def AngleConstraint.len2 (c : AngleConstraint) : ℝ :=
  let v2x := c.point3.position.x - c.point2.position.x
  let v2y := c.point3.position.y - c.point2.position.y
  Real.sqrt (v2x * v2x + v2y * v2y)

/-- The dot product of the normalized arm vectors (`currentCos` inside
`AngleConstraint.solve`). -/
noncomputable def AngleConstraint.currentCos (c : AngleConstraint) : ℝ :=
  let v1x := c.point1.position.x - c.point2.position.x
  let v1y := c.point1.position.y - c.point2.position.y
  let v2x := c.point3.position.x - c.point2.position.x
  let v2y := c.point3.position.y - c.point2.position.y
  (v1x / c.len1) * (v2x / c.len2) + (v1y / c.len1) * (v2y / c.len2)

/-- The pivot-to-`point3` vector rotated by
`(targetAngle - angle) * stiffness`, as computed inside
`AngleConstraint.solve`. -/
noncomputable def AngleConstraint.rotatedV2 (c : AngleConstraint) : Vector2D :=
  let v2x := c.point3.position.x - c.point2.position.x
  let v2y := c.point3.position.y - c.point2.position.y
  let rotationAmount := (c.targetAngle - c.calculateAngle) * c.stiffness
  let cosRot := Real.cos rotationAmount
  let sinRot := Real.sin rotationAmount
  ⟨v2x * cosRot - v2y * sinRot, v2x * sinRot + v2y * cosRot⟩

/-- `AngleConstraint.solve()`: no-op inside the corridor, on a zero-length
arm, when the cosine is already within `0.001` of the target bound's cosine,
or when `point3` is fixed; otherwise `point3` is rotated about the pivot by
`(targetAngle - angle) * stiffness`.  `point1` and `point2` are never
touched. -/
noncomputable def AngleConstraint.solve (c : AngleConstraint) : AngleConstraint :=
  let angle := c.calculateAngle
  if c.minAngle ≤ angle ∧ angle ≤ c.maxAngle then c
  else
    let targetAngle := if angle < c.minAngle then c.minAngle else c.maxAngle
    let v1x := c.point1.position.x - c.point2.position.x
    let v1y := c.point1.position.y - c.point2.position.y
    let v2x := c.point3.position.x - c.point2.position.x
    let v2y := c.point3.position.y - c.point2.position.y
    let len1 := Real.sqrt (v1x * v1x + v1y * v1y)
    let len2 := Real.sqrt (v2x * v2x + v2y * v2y)
    if len1 = 0 ∨ len2 = 0 then c
    else
      let n1x := v1x / len1
      let n1y := v1y / len1
      let n2x := v2x / len2
      let n2y := v2y / len2
      let cosTarget := Real.cos targetAngle
      let currentCos := n1x * n2x + n1y * n2y
      if |currentCos - cosTarget| < 0.001 then c
      else if c.point3.fixed then c
      else
        let rotationAmount := (targetAngle - angle) * c.stiffness
        let cosRot := Real.cos rotationAmount
        let sinRot := Real.sin rotationAmount
        let rotatedX := v2x * cosRot - v2y * sinRot
        let rotatedY := v2x * sinRot + v2y * cosRot
        { c with point3 := { c.point3 with
            position := ⟨c.point2.position.x + rotatedX, c.point2.position.y + rotatedY⟩ } }

/-- Error signalled by `Chain`'s topology builders on an out-of-range point
index (the `throw new Error(...)` of `src/core/Chain.ts`). -/
inductive ChainError where
  | invalidPointIndices : ChainError

/-- The chain aggregate (`src/core/Chain.ts`).  Constraints snapshot the
referenced point states at construction time. -/
@[ext]
structure Chain where
  points : List Point
  distanceConstraints : List DistanceConstraint
  angleConstraints : List AngleConstraint
  gravity : Vector2D

/-- `new Chain()` with the default gravity `(0, 9.8)`. -/
def Chain.empty : Chain := ⟨[], [], [], ⟨0, 9.8⟩⟩

/-- `Chain.addPoint(point)`: appends (the returned index is
`points.length - 1`). -/
def Chain.addPoint (c : Chain) (p : Point) : Chain :=
  { c with points := c.points ++ [p] }

/-- `Chain.addDistanceConstraint(i1, i2, distance?)`: error when either index
is out of range; the target distance defaults (falsy test) to the current
separation, and the pushed constraint is built by the `DistanceConstraint`
constructor with its default stiffness `1`. -/
noncomputable def Chain.addDistanceConstraint (c : Chain) (p1Index p2Index : ℕ)
    (distance : Option ℝ) : Except ChainError Chain :=
  match c.points[p1Index]?, c.points[p2Index]? with
  | some point1, some point2 =>
    let targetDistance :=
      match distance with
      | none => point1.position.distance point2.position
      | some d => if d = 0 then point1.position.distance point2.position else d
    Except.ok { c with distanceConstraints :=
      c.distanceConstraints ++ [DistanceConstraint.make point1 point2 (some targetDistance) 1] }
  | _, _ => Except.error ChainError.invalidPointIndices

/-- `Chain.addAngleConstraint(i1, i2, i3, minAngle?, maxAngle?)`: error when
any index is out of range; otherwise pushes an `AngleConstraint` built with
the constructor defaults for missing bounds and stiffness. -/
noncomputable def Chain.addAngleConstraint (c : Chain) (p1Index p2Index p3Index : ℕ)
    (minAngle maxAngle : Option ℝ) : Except ChainError Chain :=
  match c.points[p1Index]?, c.points[p2Index]?, c.points[p3Index]? with
  | some point1, some point2, some point3 =>
    Except.ok { c with angleConstraints :=
      c.angleConstraints ++ [AngleConstraint.make point1 point2 point3 minAngle maxAngle none] }
  | _, _, _ => Except.error ChainError.invalidPointIndices

/-- The body of `Chain.createChain`'s loop `for (i = 1; i < count; i++)`,
unrolled over the number of remaining iterations (second argument). -/
noncomputable def Chain.createChainAux (startX startY segmentLength : ℝ) (bodySize : Option ℝ) :
    ℕ → ℕ → Chain → Except ChainError Chain
  | _, 0, c => Except.ok c
  | i, rem + 1, c =>
    let point := Point.make (startX + (i : ℝ) * segmentLength) startY ⟨bodySize, none, none⟩
    let c1 := c.addPoint point
    match c1.addDistanceConstraint (i - 1) i (some segmentLength) with
    | Except.error e => Except.error e
    | Except.ok c2 =>
      if 2 ≤ i then
        match c2.addAngleConstraint (i - 2) (i - 1) i (some (Real.pi / 8))
            (some (Real.pi - Real.pi / 8)) with
        | Except.error e => Except.error e
        | Except.ok c3 => Chain.createChainAux startX startY segmentLength bodySize (i + 1) rem c3
      else Chain.createChainAux startX startY segmentLength bodySize (i + 1) rem c2

/-- `Chain.createChain(startX, startY, count, segmentLength, bodySize?)`:
a fixed anchor point, then `count - 1` further points each wired to its
predecessor by a distance constraint of `segmentLength`, with an angle
constraint of corridor `[π/8, π - π/8]` over every trailing triple from the
third point on. -/
noncomputable def Chain.createChain (c : Chain) (startX startY : ℝ) (count : ℕ)
    (segmentLength : ℝ) (bodySize : Option ℝ) : Except ChainError Chain :=
  let firstPoint := Point.make startX startY ⟨bodySize, some true, none⟩
  Chain.createChainAux startX startY segmentLength bodySize 1 (count - 1) (c.addPoint firstPoint)

/-- An IK target (`src/ik/Fabric.ts`): a free-floating goal position. -/
@[ext]
structure Target where
  position : Vector2D

/-- A `Fabric` joint: an unstiffened distance constraint between the points
at the two indices of the fabric's point list. -/
@[ext]
structure Joint where
  point1 : ℕ
  point2 : ℕ
  length : ℝ

/-- A `Fabric` target binding: the point at index `point` is pulled toward
`target` scaled by `strength`. -/
@[ext]
structure TargetConstraint where
  point : ℕ
  target : Target
  strength : ℝ

/-- The IK aggregate (`src/ik/Fabric.ts`).  Joints and target bindings refer
to points by index into `points` (the TypeScript object references into the
same array). -/
@[ext]
structure Fabric where
  points : List Point
  joints : List Joint
  targets : List TargetConstraint

/-- `new Fabric()`. -/
def Fabric.empty : Fabric := ⟨[], [], []⟩

/-- `Fabric.addPoint(point)`: appends and returns the point (its index is
`points.length - 1`). -/
def Fabric.addPoint (f : Fabric) (p : Point) : Fabric :=
  { f with points := f.points ++ [p] }

/-- `Fabric.connectPoints(point1, point2, length?)`: appends a joint whose
length defaults (falsy test) to the current separation of the two points. -/
noncomputable def Fabric.connectPoints (f : Fabric) (i1 i2 : ℕ) (length : Option ℝ) : Fabric :=
  match f.points[i1]?, f.points[i2]? with
  | some point1, some point2 =>
    let distance :=
      match length with
      | none => point1.position.distance point2.position
      | some l => if l = 0 then point1.position.distance point2.position else l
    { f with joints := f.joints ++ [⟨i1, i2, distance⟩] }
  | _, _ => f

/-- `Fabric.setTarget(point, targetX, targetY, strength)`: registers and
returns a new target. -/
def Fabric.setTarget (f : Fabric) (point : ℕ) (targetX targetY strength : ℝ) :
    Fabric × Target :=
  let target : Target := ⟨⟨targetX, targetY⟩⟩
  ({ f with targets := f.targets ++ [⟨point, target, strength⟩] }, target)

/-- The target-pull phase of `Fabric.solve` for one registered target: a free
bound point is nudged by `(target - position) * strength`. -/
def Fabric.applyTarget (pts : List Point) (tc : TargetConstraint) : List Point :=
  match pts[tc.point]? with
  | some point =>
    if point.fixed then pts
    else
      let dx := (tc.target.position.x - point.position.x) * tc.strength
      let dy := (tc.target.position.y - point.position.y) * tc.strength
      pts.set tc.point
        { point with position := ⟨point.position.x + dx, point.position.y + dy⟩ }
  | none => pts

/-- The joint-relaxation step of `Fabric.solve` on the two point states of a
joint: the same distribution policy as `DistanceConstraint.solve`, with no
stiffness scaling. -/
noncomputable def Fabric.relaxJointPair (length : ℝ) (point1 point2 : Point) : Point × Point :=
  let dx := point2.position.x - point1.position.x
  let dy := point2.position.y - point1.position.y
  let currentLength := Real.sqrt (dx * dx + dy * dy)
  if currentLength = 0 then (point1, point2)
  else
    let diff := (length - currentLength) / currentLength
    let offsetX := dx * diff * 0.5
    let offsetY := dy * diff * 0.5
    if !point1.fixed && !point2.fixed then
      ({ point1 with
          position := ⟨point1.position.x - offsetX, point1.position.y - offsetY⟩ },
       { point2 with
          position := ⟨point2.position.x + offsetX, point2.position.y + offsetY⟩ })
    else if !point1.fixed then
      ({ point1 with
          position := ⟨point1.position.x - offsetX * 2, point1.position.y - offsetY * 2⟩ },
       point2)
    else if !point2.fixed then
      (point1,
       { point2 with
          position := ⟨point2.position.x + offsetX * 2, point2.position.y + offsetY * 2⟩ })
    else (point1, point2)

/-- One joint of the relaxation pass of `Fabric.solve`: the two referenced
point states are relaxed and written back. -/
noncomputable def Fabric.applyJoint (pts : List Point) (j : Joint) : List Point :=
  match pts[j.point1]?, pts[j.point2]? with
  | some p1, some p2 =>
    let q := Fabric.relaxJointPair j.length p1 p2
    (pts.set j.point1 q.1).set j.point2 q.2
  | _, _ => pts

/-- One full relaxation pass of `Fabric.solve` over all joints, in order. -/
noncomputable def Fabric.jointPass (joints : List Joint) (pts : List Point) : List Point :=
  joints.foldl Fabric.applyJoint pts

/-- The `iterations` relaxation passes of `Fabric.solve`. -/
noncomputable def Fabric.jointIterations (joints : List Joint) : ℕ → List Point → List Point
  | 0, pts => pts
  | n + 1, pts => Fabric.jointIterations joints n (Fabric.jointPass joints pts)

/-- `Fabric.solve(iterations)`: first every registered target pulls its bound
point, then `iterations` passes of joint relaxation. -/
noncomputable def Fabric.solve (f : Fabric) (iterations : ℕ) : Fabric :=
  let pts1 := f.targets.foldl Fabric.applyTarget f.points
  { f with points := Fabric.jointIterations f.joints iterations pts1 }

/-- The loop of `Fabric.createLeg` over the segment list, carrying the index
of the next point, the start point and the last point (index and state). -/
noncomputable def Fabric.createLegLoop (x y : ℝ) (fixStart : Bool) (total : ℕ) :
    List ℝ → ℕ → Fabric → Option (ℕ × Point) → Option (ℕ × Point) →
      Fabric × Option (ℕ × Point) × Option (ℕ × Point)
  | [], _, f, startPoint, lastPoint => (f, startPoint, lastPoint)
  | seg :: rest, i, f, startPoint, lastPoint =>
    let isFirst := i = 0
    let isLast := i = total - 1
    let pointX :=
      match lastPoint with
      | some lp => lp.2.position.x + seg
      | none => x
    let pointY :=
      match lastPoint with
      | some lp => lp.2.position.y
      | none => y
    let point := Point.make pointX pointY
      ⟨some (if isLast then 4 else 2), some (isFirst && fixStart), none⟩
    let idx := f.points.length
    let f1 := f.addPoint point
    let f2 :=
      match lastPoint with
      | some lp => f1.connectPoints lp.1 idx (some seg)
      | none => f1
    let startPoint1 := if isFirst then some (idx, point) else startPoint
    Fabric.createLegLoop x y fixStart total rest (i + 1) f2 startPoint1 (some (idx, point))

/-- `Fabric.createLeg(x, y, segments, fixStart)`: a chain of
`segments.length` points along `+x`, the first fixed iff `fixStart`, each
new point joined to its predecessor with that iteration's segment length; a
target 20 units below the last point with strength `0.5` is registered and
returned, unless fewer than two points were created (then a detached
fallback target at `(x, y)` is returned). -/
noncomputable def Fabric.createLeg (f : Fabric) (x y : ℝ) (segments : List ℝ)
    (fixStart : Bool) : Fabric × Target :=
  let r := Fabric.createLegLoop x y fixStart segments.length segments 0 f none none
  match r.2.2 with
  | none => (r.1, ⟨⟨x, y⟩⟩)
  | some lastP =>
    let isSame :=
      match r.2.1 with
      | some sp => sp.1 == lastP.1
      | none => false
    if isSame then (r.1, ⟨⟨x, y⟩⟩)
    else
      let footX := lastP.2.position.x
      let footY := lastP.2.position.y + 20
      r.1.setTarget lastP.1 footX footY 0.5

/-- Claim C9: for every free `Point` with zero initial velocity, one
`update(dt, g)` call yields `velocity = g * dt`,
`position = initial_position + g * dt²` and
`prevPosition = initial_position`. -/
theorem point_update_gravity (p : Point) (dt : ℝ) (g : Vector2D)
    (hf : p.fixed = false) (hv : p.velocity = ⟨0, 0⟩) :
    (p.update dt g).velocity = ⟨g.x * dt, g.y * dt⟩ ∧
    (p.update dt g).position = ⟨p.position.x + g.x * dt ^ 2, p.position.y + g.y * dt ^ 2⟩ ∧
    (p.update dt g).prevPosition = p.position := by
  simp only [Point.update, hf, hv, Vector2D.add, Vector2D.clone, Vector2D.multiplyScalar,
    Bool.false_eq_true, if_false]
  refine ⟨by ext <;> simp <;> ring, by ext <;> simp <;> ring, trivial⟩

/-- Witness for `point_update_gravity` at a concrete free point with zero
velocity. -/
theorem point_update_gravity_witness :
    ((Point.make 1 2 PointOptions.none3).update 3 ⟨0, 9.8⟩).velocity = ⟨0 * 3, 9.8 * 3⟩ ∧
    ((Point.make 1 2 PointOptions.none3).update 3 ⟨0, 9.8⟩).position =
      ⟨1 + 0 * 3 ^ 2, 2 + 9.8 * 3 ^ 2⟩ ∧
    ((Point.make 1 2 PointOptions.none3).update 3 ⟨0, 9.8⟩).prevPosition =
      (Point.make 1 2 PointOptions.none3).position :=
  point_update_gravity (Point.make 1 2 PointOptions.none3) 3 ⟨0, 9.8⟩ rfl rfl

/-- Claim C6: one `Fabric` joint-relaxation step on a joint
`{point1, point2, length}` produces exactly the positions of
`DistanceConstraint.solve()` on the same two points with
`distance = length` and `stiffness = 1`, in every case of the distribution
policy. -/
theorem fabric_joint_refines_distance_solve (length : ℝ) (p1 p2 : Point) :
    Fabric.relaxJointPair length p1 p2 =
      ((DistanceConstraint.mk p1 p2 length 1).solve.point1,
       (DistanceConstraint.mk p1 p2 length 1).solve.point2) := by
  simp only [Fabric.relaxJointPair, DistanceConstraint.solve]
  split_ifs <;>
    simp_all [Prod.ext_iff, Point.ext_iff, Vector2D.ext_iff] <;>
    try ring_nf

/-- Claim C7: coincident points (current Euclidean distance exactly 0)
make both `DistanceConstraint.solve` and the `Fabric` joint relaxation a
no-op: both positions are unchanged.  Over the reals no NaN or Infinity
can arise; the guard makes the step the identity. -/
theorem zero_distance_noop (c : DistanceConstraint) (len : ℝ) (p1 p2 : Point)
    (hc : c.point1.position = c.point2.position) (hp : p1.position = p2.position) :
    c.solve = c ∧ Fabric.relaxJointPair len p1 p2 = (p1, p2) := by
  constructor
  · simp [DistanceConstraint.solve, hc]
  · simp [Fabric.relaxJointPair, hp]

/-- Witness for `zero_distance_noop` at a concrete coincident pair. -/
theorem zero_distance_noop_witness :
    (DistanceConstraint.mk (Point.make 1 2 PointOptions.none3)
        (Point.make 1 2 PointOptions.none3) 5 1).solve =
      DistanceConstraint.mk (Point.make 1 2 PointOptions.none3)
        (Point.make 1 2 PointOptions.none3) 5 1 ∧
    Fabric.relaxJointPair 7 (Point.make 1 2 PointOptions.none3)
        (Point.make 1 2 PointOptions.none3) =
      (Point.make 1 2 PointOptions.none3, Point.make 1 2 PointOptions.none3) :=
  zero_distance_noop _ 7 _ _ rfl rfl

/-- Relation preserved by every solver step: the fixed flag survives, and a
fixed point keeps its position. -/
def PointFix (p q : Point) : Prop :=
  q.fixed = p.fixed ∧ (p.fixed = true → q.position = p.position)

theorem pointFix_refl (p : Point) : PointFix p p := ⟨rfl, fun _ => rfl⟩

theorem pointFix_trans {p q r : Point} (h1 : PointFix p q) (h2 : PointFix q r) :
    PointFix p r := by
  refine ⟨h2.1.trans h1.1, fun h => ?_⟩
  rw [h2.2 (h1.1.trans h), h1.2 h]

/-- Step relation on point lists: every index keeps its fixed flag, and a
fixed point keeps its position. -/
def FixedOk (pts pts' : List Point) : Prop :=
  ∀ (k : ℕ) (p : Point), pts[k]? = some p → ∃ q, pts'[k]? = some q ∧ PointFix p q

theorem fixedOk_refl (pts : List Point) : FixedOk pts pts :=
  fun _ p h => ⟨p, h, pointFix_refl p⟩

theorem fixedOk_trans {a b c : List Point} (h1 : FixedOk a b) (h2 : FixedOk b c) :
    FixedOk a c := by
  intro k p hp
  obtain ⟨q, hq, hpq⟩ := h1 k p hp
  obtain ⟨r, hr, hqr⟩ := h2 k q hq
  exact ⟨r, hr, pointFix_trans hpq hqr⟩

theorem fixedOk_set {pts : List Point} {k : ℕ} {p q : Point}
    (hp : pts[k]? = some p) (hq : PointFix p q) : FixedOk pts (pts.set k q) := by
  intro j r hj
  by_cases hkj : k = j
  · subst hkj
    rw [hp] at hj
    obtain rfl : p = r := Option.some_inj.mp hj
    have hk : k < pts.length := (List.getElem?_eq_some_iff.mp hp).1
    exact ⟨q, List.getElem?_set_eq hk, hq⟩
  · exact ⟨r, by rw [List.getElem?_set_ne hkj]; exact hj, pointFix_refl r⟩

theorem applyTarget_fixedOk (pts : List Point) (tc : TargetConstraint) :
    FixedOk pts (Fabric.applyTarget pts tc) := by
  unfold Fabric.applyTarget
  cases h : pts[tc.point]? with
  | none => exact fixedOk_refl pts
  | some point =>
    dsimp only
    by_cases hf : point.fixed = true
    · rw [if_pos hf]
      exact fixedOk_refl pts
    · rw [if_neg hf]
      exact fixedOk_set h ⟨rfl, fun hfix => absurd hfix hf⟩

theorem relaxJointPair_fix1 (len : ℝ) (p1 p2 : Point) :
    PointFix p1 (Fabric.relaxJointPair len p1 p2).1 := by
  simp only [Fabric.relaxJointPair]
  split_ifs <;> refine ⟨rfl, fun hfix => ?_⟩ <;> simp_all

theorem relaxJointPair_fix2 (len : ℝ) (p1 p2 : Point) :
    PointFix p2 (Fabric.relaxJointPair len p1 p2).2 := by
  simp only [Fabric.relaxJointPair]
  split_ifs <;> refine ⟨rfl, fun hfix => ?_⟩ <;> simp_all

theorem applyJoint_fixedOk (pts : List Point) (j : Joint) :
    FixedOk pts (Fabric.applyJoint pts j) := by
  unfold Fabric.applyJoint
  cases h1 : pts[j.point1]? with
  | none => exact fixedOk_refl pts
  | some p1 =>
    cases h2 : pts[j.point2]? with
    | none => exact fixedOk_refl pts
    | some p2 =>
      dsimp only
      by_cases hij : j.point1 = j.point2
      · rw [hij] at h1
        obtain rfl : p1 = p2 := Option.some_inj.mp (h1.symm.trans h2)
        rw [hij, List.set_set]
        exact fixedOk_set h2 (relaxJointPair_fix2 j.length p1 p1)
      · refine fixedOk_trans (fixedOk_set h1 (relaxJointPair_fix1 j.length p1 p2)) ?_
        refine fixedOk_set ?_ (relaxJointPair_fix2 j.length p1 p2)
        rw [List.getElem?_set_ne hij]
        exact h2

theorem foldl_fixedOk {β : Type} (step : List Point → β → List Point)
    (hstep : ∀ pts b, FixedOk pts (step pts b)) :
    ∀ (l : List β) (pts : List Point), FixedOk pts (l.foldl step pts)
  | [], pts => fixedOk_refl pts
  | b :: l, pts =>
    fixedOk_trans (hstep pts b) (foldl_fixedOk step hstep l (step pts b))

theorem jointIterations_fixedOk (joints : List Joint) :
    ∀ (n : ℕ) (pts : List Point), FixedOk pts (Fabric.jointIterations joints n pts)
  | 0, pts => fixedOk_refl pts
  | n + 1, pts =>
    fixedOk_trans (foldl_fixedOk Fabric.applyJoint applyJoint_fixedOk joints pts)
      (jointIterations_fixedOk joints n (Fabric.jointPass joints pts))

theorem fabric_solve_fixedOk (f : Fabric) (n : ℕ) :
    FixedOk f.points (f.solve n).points := by
  unfold Fabric.solve
  exact fixedOk_trans (foldl_fixedOk Fabric.applyTarget applyTarget_fixedOk f.targets f.points)
    (jointIterations_fixedOk f.joints n _)

/-- Claim C1: a fixed point's position is never changed by `Point.update`,
by `DistanceConstraint.solve`, by `AngleConstraint.solve` (which never
touches `point1` or `point2` at all), or by either phase of `Fabric.solve`
(target pull and joint relaxation), for all states of the other points and
all parameter values. -/
theorem fixed_point_invariance :
    (∀ (p : Point) (dt : ℝ) (g : Vector2D),
      p.fixed = true → (p.update dt g).position = p.position) ∧
    (∀ c : DistanceConstraint,
      c.point1.fixed = true → c.solve.point1.position = c.point1.position) ∧
    (∀ c : DistanceConstraint,
      c.point2.fixed = true → c.solve.point2.position = c.point2.position) ∧
    (∀ c : AngleConstraint, c.solve.point1 = c.point1 ∧ c.solve.point2 = c.point2) ∧
    (∀ c : AngleConstraint,
      c.point3.fixed = true → c.solve.point3.position = c.point3.position) ∧
    (∀ (f : Fabric) (n k : ℕ) (p : Point), f.points[k]? = some p → p.fixed = true →
      ∃ q, (f.solve n).points[k]? = some q ∧ q.position = p.position) := by
  refine ⟨?_, ?_, ?_, ?_, ?_, ?_⟩
  · intro p dt g h
    simp [Point.update, h]
  · intro c h
    simp only [DistanceConstraint.solve]
    split_ifs <;> first | rfl | simp_all
  · intro c h
    simp only [DistanceConstraint.solve]
    split_ifs <;> first | rfl | simp_all
  · intro c
    simp only [AngleConstraint.solve]
    split_ifs <;> exact ⟨rfl, rfl⟩
  · intro c h
    simp only [AngleConstraint.solve]
    split_ifs <;> first | rfl | simp_all
  · intro f n k p hp hfix
    obtain ⟨q, hq, hpq⟩ := fabric_solve_fixedOk f n k p hp
    exact ⟨q, hq, hpq.2 hfix⟩

/-- Claim C8: `Chain.addDistanceConstraint` and `Chain.addAngleConstraint`
fail exactly when one of the given indices is out of range of the point
sequence, and the operations are atomic: on success exactly one constraint
is appended and nothing else changes (on failure the `Except.error` result
carries no modified chain at all). -/
theorem add_constraint_index_validation (c : Chain) (i1 i2 i3 : ℕ) (d mn mx : Option ℝ) :
    ((c.addDistanceConstraint i1 i2 d).isOk = true ↔
      i1 < c.points.length ∧ i2 < c.points.length) ∧
    (∀ c2, c.addDistanceConstraint i1 i2 d = Except.ok c2 →
      c2.points = c.points ∧ c2.angleConstraints = c.angleConstraints ∧
      c2.gravity = c.gravity ∧
      ∃ dc, c2.distanceConstraints = c.distanceConstraints ++ [dc]) ∧
    ((c.addAngleConstraint i1 i2 i3 mn mx).isOk = true ↔
      i1 < c.points.length ∧ i2 < c.points.length ∧ i3 < c.points.length) ∧
    (∀ c2, c.addAngleConstraint i1 i2 i3 mn mx = Except.ok c2 →
      c2.points = c.points ∧ c2.distanceConstraints = c.distanceConstraints ∧
      c2.gravity = c.gravity ∧
      ∃ ac, c2.angleConstraints = c.angleConstraints ++ [ac]) := by
  refine ⟨?_, ?_, ?_, ?_⟩
  · unfold Chain.addDistanceConstraint
    cases h1 : c.points[i1]? with
    | none =>
      have := List.getElem?_eq_none_iff.mp h1
      simp [Except.isOk, Except.toBool]
      omega
    | some p1 =>
      have a1 := (List.getElem?_eq_some_iff.mp h1).1
      cases h2 : c.points[i2]? with
      | none =>
        have := List.getElem?_eq_none_iff.mp h2
        simp [Except.isOk, Except.toBool]
        omega
      | some p2 =>
        have a2 := (List.getElem?_eq_some_iff.mp h2).1
        simp [Except.isOk, Except.toBool]
        omega
  · unfold Chain.addDistanceConstraint
    cases h1 : c.points[i1]? with
    | none => intro c2 hc2; cases hc2
    | some p1 =>
      cases h2 : c.points[i2]? with
      | none => intro c2 hc2; cases hc2
      | some p2 =>
        intro c2 hc2
        obtain rfl : _ = c2 := Option.some_inj.mp (congrArg Except.toOption hc2)
        exact ⟨rfl, rfl, rfl, _, rfl⟩
  · unfold Chain.addAngleConstraint
    cases h1 : c.points[i1]? with
    | none =>
      have := List.getElem?_eq_none_iff.mp h1
      simp [Except.isOk, Except.toBool]
      omega
    | some p1 =>
      have a1 := (List.getElem?_eq_some_iff.mp h1).1
      cases h2 : c.points[i2]? with
      | none =>
        have := List.getElem?_eq_none_iff.mp h2
        simp [Except.isOk, Except.toBool]
        omega
      | some p2 =>
        have a2 := (List.getElem?_eq_some_iff.mp h2).1
        cases h3 : c.points[i3]? with
        | none =>
          have := List.getElem?_eq_none_iff.mp h3
          simp [Except.isOk, Except.toBool]
          omega
        | some p3 =>
          have a3 := (List.getElem?_eq_some_iff.mp h3).1
          simp [Except.isOk, Except.toBool]
          omega
  · unfold Chain.addAngleConstraint
    cases h1 : c.points[i1]? with
    | none => intro c2 hc2; cases hc2
    | some p1 =>
      cases h2 : c.points[i2]? with
      | none => intro c2 hc2; cases hc2
      | some p2 =>
        cases h3 : c.points[i3]? with
        | none => intro c2 hc2; cases hc2
        | some p3 =>
          intro c2 hc2
          obtain rfl : _ = c2 := Option.some_inj.mp (congrArg Except.toOption hc2)
          exact ⟨rfl, rfl, rfl, _, rfl⟩

/-- A concrete two-point chain used by witnesses. -/
noncomputable def chainW : Chain :=
  ⟨[Point.make 0 0 PointOptions.none3, Point.make 3 4 PointOptions.none3], [], [], ⟨0, 9.8⟩⟩

/-- Witness for `add_constraint_index_validation`: on a two-point chain,
valid indices succeed and an out-of-range index fails, for both
constraint kinds. -/
theorem add_constraint_index_validation_witness :
    (chainW.addDistanceConstraint 0 1 (some 5)).isOk = true ∧
    (chainW.addDistanceConstraint 0 13 (some 5)).isOk = false ∧
    (chainW.addAngleConstraint 0 1 1 none none).isOk = true ∧
    (chainW.addAngleConstraint 7 1 0 none none).isOk = false := by
  have h1 := (add_constraint_index_validation chainW 0 1 1 (some 5) none none).1
  have h2 := (add_constraint_index_validation chainW 0 13 0 (some 5) none none).1
  have h3 := (add_constraint_index_validation chainW 0 1 1 (some 5) none none).2.2.1
  have h4 := (add_constraint_index_validation chainW 7 1 0 (some 5) none none).2.2.1
  refine ⟨h1.mpr (by constructor <;> simp [chainW]), ?_, h3.mpr (by simp [chainW]), ?_⟩
  · cases hb : (chainW.addDistanceConstraint 0 13 (some 5)).isOk with
    | false => rfl
    | true =>
      exfalso
      have := h2.mp hb
      simp [chainW] at this
  · cases hb : (chainW.addAngleConstraint 7 1 0 none none).isOk with
    | false => rfl
    | true =>
      exfalso
      have := h4.mp hb
      simp [chainW] at this

/-- Claim C2 (amended): `createChain(0, 0, 5, 20)` on an empty chain yields
5 points at `(0,0), (20,0), ..., (80,0)` with only the first fixed, 4
distance constraints of distance `20` over consecutive pairs, and exactly
`count - 2 = 3` angle constraints over the trailing triples
`(0,1,2), (1,2,3), (2,3,4)`, each with corridor `[π/8, 7π/8]`. -/
theorem createChain_topology :
    (Chain.createChain Chain.empty 0 0 5 20 none).map (fun ch =>
      (ch.points.map (fun p => (p.position.x, p.position.y, p.fixed)),
       ch.distanceConstraints.map (fun dc =>
         (dc.point1.position.x, dc.point2.position.x, dc.distance, dc.stiffness)),
       ch.angleConstraints.map (fun ac =>
         (ac.point1.position.x, ac.point2.position.x, ac.point3.position.x,
          ac.minAngle, ac.maxAngle)))) =
    Except.ok
      ([(0, 0, true), (20, 0, false), (40, 0, false), (60, 0, false), (80, 0, false)],
       [(0, 20, 20, 1), (20, 40, 20, 1), (40, 60, 20, 1), (60, 80, 20, 1)],
       [(0, 20, 40, Real.pi / 8, 7 * Real.pi / 8),
        (20, 40, 60, Real.pi / 8, 7 * Real.pi / 8),
        (40, 60, 80, Real.pi / 8, 7 * Real.pi / 8)]) := by
  norm_num [Chain.createChain, Chain.createChainAux, Chain.empty, Chain.addPoint,
      Chain.addDistanceConstraint, Chain.addAngleConstraint, Point.make,
      DistanceConstraint.make, AngleConstraint.make, Except.map]
  try ring

/-- Claim C2 as stated is false: `createChain(0, 0, 5, 20)` creates 3 angle
constraints (one per trailing triple from the third point on), not 2. -/
theorem createChain_angle_count_counterexample :
    (Chain.createChain Chain.empty 0 0 5 20 none).map (fun ch => ch.angleConstraints.length)
      = Except.ok 3 ∧ (3 : ℕ) ≠ 2 := by
  constructor
  · norm_num [Chain.createChain, Chain.createChainAux, Chain.empty, Chain.addPoint,
      Chain.addDistanceConstraint, Chain.addAngleConstraint, Point.make,
      DistanceConstraint.make, AngleConstraint.make, Except.map]
  · decide

/-- Claim C3 (amended): `createLeg(0, 0, [10, 15], true)` on an empty fabric
yields 2 points at `(0,0)` (fixed, body size 2) and `(15,0)` (free, body
size 4), one joint of length `15` between them (the first entry of
`segments` is never used as a length), and registers and returns a target
at `(15, 20)` bound to the last point with strength `0.5`. -/
theorem createLeg_scenario :
    ((Fabric.empty.createLeg 0 0 [10, 15] true).1.points.map
        (fun p => (p.position.x, p.position.y, p.fixed, p.bodySize)) =
      [(0, 0, true, 2), (15, 0, false, 4)]) ∧
    ((Fabric.empty.createLeg 0 0 [10, 15] true).1.joints = [⟨0, 1, 15⟩]) ∧
    ((Fabric.empty.createLeg 0 0 [10, 15] true).1.targets.map
        (fun tc => (tc.point, tc.target.position.x, tc.target.position.y, tc.strength)) =
      [(1, 15, 20, 0.5)]) ∧
    ((Fabric.empty.createLeg 0 0 [10, 15] true).2.position = ⟨15, 20⟩) := by
  norm_num [Fabric.createLeg, Fabric.createLegLoop, Fabric.empty, Fabric.addPoint,
    Fabric.connectPoints, Fabric.setTarget, Point.make]

/-- Claim C3 as stated is false: the second point of
`createLeg(0, 0, [10, 15], true)` sits at `(15, 0)` (offset by
`segments[1]`), not `(10, 0)`, and the single joint has length `15`, not
`10`. -/
theorem createLeg_counterexample :
    ((Fabric.empty.createLeg 0 0 [10, 15] true).1.points.map
        (fun p => p.position.x) = [0, 15]) ∧
    ((Fabric.empty.createLeg 0 0 [10, 15] true).1.joints.map Joint.length = [15]) ∧
    ((15 : ℝ) ≠ 10) := by
  refine ⟨?_, ?_, by norm_num⟩ <;>
    norm_num [Fabric.createLeg, Fabric.createLegLoop, Fabric.empty, Fabric.addPoint,
      Fabric.connectPoints, Fabric.setTarget, Point.make]

/-- Claim C10 (amended): an explicit target length of `0` is treated as
absent: the `DistanceConstraint` constructor, `Chain.addDistanceConstraint`
and `Fabric.connectPoints` all fall back to the current separation of the
two points, so the configured target length is `0` only when the two points
themselves coincide. -/
theorem zero_target_length_fallback (p1 p2 : Point) (s : ℝ) (c : Chain) (f : Fabric)
    (i1 i2 j1 j2 : ℕ) (q1 q2 r1 r2 : Point)
    (hc1 : c.points[i1]? = some q1) (hc2 : c.points[i2]? = some q2)
    (hf1 : f.points[j1]? = some r1) (hf2 : f.points[j2]? = some r2) :
    (DistanceConstraint.make p1 p2 (some 0) s).distance =
      p1.position.distance p2.position ∧
    c.addDistanceConstraint i1 i2 (some 0) = Except.ok { c with distanceConstraints :=
      c.distanceConstraints ++ [⟨q1, q2, q1.position.distance q2.position, 1⟩] } ∧
    (f.connectPoints j1 j2 (some 0)).joints =
      f.joints ++ [⟨j1, j2, r1.position.distance r2.position⟩] := by
  refine ⟨by simp [DistanceConstraint.make], ?_, ?_⟩
  · unfold Chain.addDistanceConstraint
    rw [hc1, hc2]
    dsimp only
    by_cases hd : q1.position.distance q2.position = 0 <;>
      simp [hd, DistanceConstraint.make]
  · unfold Fabric.connectPoints
    rw [hf1, hf2]
    simp

/-- A concrete two-point fabric used by witnesses. -/
noncomputable def fabricW : Fabric :=
  ⟨[Point.make 0 0 PointOptions.none3, Point.make 3 4 PointOptions.none3], [], []⟩

/-- Witness for `zero_target_length_fallback` on concrete two-point
aggregates. -/
theorem zero_target_length_fallback_witness :
    (DistanceConstraint.make (Point.make 0 0 PointOptions.none3)
        (Point.make 3 4 PointOptions.none3) (some 0) 1).distance =
      (Point.make 0 0 PointOptions.none3).position.distance
        (Point.make 3 4 PointOptions.none3).position ∧
    chainW.addDistanceConstraint 0 1 (some 0) =
      Except.ok { chainW with distanceConstraints := chainW.distanceConstraints ++
        [⟨Point.make 0 0 PointOptions.none3, Point.make 3 4 PointOptions.none3,
          (Point.make 0 0 PointOptions.none3).position.distance
            (Point.make 3 4 PointOptions.none3).position, 1⟩] } ∧
    (fabricW.connectPoints 0 1 (some 0)).joints = fabricW.joints ++
      [⟨0, 1, (Point.make 0 0 PointOptions.none3).position.distance
        (Point.make 3 4 PointOptions.none3).position⟩] :=
  zero_target_length_fallback (Point.make 0 0 PointOptions.none3)
    (Point.make 3 4 PointOptions.none3) 1 chainW fabricW 0 1 0 1 _ _ _ _
    rfl rfl rfl rfl

/-- The final clause of claim C10 as stated is false: with two coincident
points, the constructor given `distance = 0` does configure a constraint
whose target length is `0`. -/
theorem zero_target_length_coincident_counterexample :
    (DistanceConstraint.make (Point.make 1 1 PointOptions.none3)
        (Point.make 1 1 PointOptions.none3) (some 0) 1).distance = 0 := by
  simp [DistanceConstraint.make, Point.make, Vector2D.distance]

/-- Claim C4 (amended): when the current angle lies outside
`[minAngle, maxAngle]`, both arms have nonzero length, the normalized
cosine is at least `0.001` away from the violated bound's cosine (a
tolerance guard the code applies before correcting), and `point3` is free,
`solve()` sets `point3` to the pivot plus the pivot-to-`point3` vector
rotated by `(targetAngle - angle) * stiffness`; `point1` and `point2` are
never adjusted. -/
theorem angle_solve_out_of_corridor (c : AngleConstraint)
    (hout : ¬ (c.minAngle ≤ c.calculateAngle ∧ c.calculateAngle ≤ c.maxAngle))
    (hl1 : c.len1 ≠ 0) (hl2 : c.len2 ≠ 0)
    (htol : 0.001 ≤ |c.currentCos - Real.cos c.targetAngle|)
    (h3 : c.point3.fixed = false) :
    c.solve.point3.position =
      ⟨c.point2.position.x + c.rotatedV2.x, c.point2.position.y + c.rotatedV2.y⟩ ∧
    c.solve.point1 = c.point1 ∧ c.solve.point2 = c.point2 := by
  have hl1' := hl1
  have hl2' := hl2
  have htol' := htol
  simp only [AngleConstraint.len1] at hl1'
  simp only [AngleConstraint.len2] at hl2'
  simp only [AngleConstraint.currentCos, AngleConstraint.len1, AngleConstraint.len2,
    AngleConstraint.targetAngle] at htol'
  have hsolve : c.solve = { c with point3 := { c.point3 with
      position := ⟨c.point2.position.x + c.rotatedV2.x,
                   c.point2.position.y + c.rotatedV2.y⟩ } } := by
    simp only [AngleConstraint.solve]
    rw [if_neg hout, if_neg (not_or.mpr ⟨hl1', hl2'⟩), if_neg (not_lt.mpr htol'),
      if_neg (by simp [h3])]
    simp only [AngleConstraint.rotatedV2, AngleConstraint.targetAngle]
  rw [hsolve]
  exact ⟨rfl, rfl, rfl⟩

/-- A right-angle configuration for the angle-constraint scenarios: arms of
length 1 from the pivot `(0,0)` to `(1,0)` and `(0,1)`, stiffness `0.5`. -/
noncomputable def angleRight (mn mx : ℝ) : AngleConstraint :=
  ⟨Point.make 1 0 PointOptions.none3, Point.make 0 0 PointOptions.none3,
   Point.make 0 1 PointOptions.none3, mn, mx, 0.5⟩

theorem angleRight_calc (mn mx : ℝ) : (angleRight mn mx).calculateAngle = Real.pi / 2 := by
  norm_num [angleRight, AngleConstraint.calculateAngle, Point.make]

theorem angleRight_len1 (mn mx : ℝ) : (angleRight mn mx).len1 = 1 := by
  norm_num [angleRight, AngleConstraint.len1, Point.make]

theorem angleRight_len2 (mn mx : ℝ) : (angleRight mn mx).len2 = 1 := by
  norm_num [angleRight, AngleConstraint.len2, Point.make]

theorem angleRight_cos (mn mx : ℝ) : (angleRight mn mx).currentCos = 0 := by
  norm_num [angleRight, AngleConstraint.currentCos, AngleConstraint.len1,
    AngleConstraint.len2, Point.make]

/-- Witness for `angle_solve_out_of_corridor`: the right angle violates the
corridor `[3π/4, π]` and all the other hypotheses hold. -/
theorem angle_solve_out_of_corridor_witness :
    (angleRight (3 * Real.pi / 4) Real.pi).solve.point3.position =
      ⟨(angleRight (3 * Real.pi / 4) Real.pi).point2.position.x +
        (angleRight (3 * Real.pi / 4) Real.pi).rotatedV2.x,
       (angleRight (3 * Real.pi / 4) Real.pi).point2.position.y +
        (angleRight (3 * Real.pi / 4) Real.pi).rotatedV2.y⟩ ∧
    (angleRight (3 * Real.pi / 4) Real.pi).solve.point1 =
      (angleRight (3 * Real.pi / 4) Real.pi).point1 ∧
    (angleRight (3 * Real.pi / 4) Real.pi).solve.point2 =
      (angleRight (3 * Real.pi / 4) Real.pi).point2 := by
  have hpi := Real.pi_pos
  refine angle_solve_out_of_corridor (angleRight (3 * Real.pi / 4) Real.pi) ?_ ?_ ?_ ?_ rfl
  · rw [angleRight_calc]
    intro h
    have := h.1
    simp only [angleRight] at this
    nlinarith
  · rw [angleRight_len1]; norm_num
  · rw [angleRight_len2]; norm_num
  · rw [angleRight_cos]
    have ht : (angleRight (3 * Real.pi / 4) Real.pi).targetAngle = 3 * Real.pi / 4 := by
      unfold AngleConstraint.targetAngle
      rw [angleRight_calc]
      rw [if_pos]
      · simp [angleRight]
      · simp [angleRight]
        nlinarith
    rw [ht]
    have hc : Real.cos (3 * Real.pi / 4) = -(Real.sqrt 2 / 2) := by
      have : (3 : ℝ) * Real.pi / 4 = Real.pi - Real.pi / 4 := by ring
      rw [this, Real.cos_pi_sub, Real.cos_pi_div_four]
    rw [hc]
    have h2 : (1 : ℝ) ≤ Real.sqrt 2 := by
      rw [show (1 : ℝ) = Real.sqrt 1 from (Real.sqrt_one).symm]
      exact Real.sqrt_le_sqrt (by norm_num)
    rw [abs_of_nonneg (by nlinarith)]
    nlinarith

/-- When the corridor is violated and both arms are nonzero but the
normalized cosine is within `0.001` of the target bound's cosine,
`AngleConstraint.solve` returns its input unchanged. -/
theorem angle_solve_tolerance_noop (c : AngleConstraint)
    (hout : ¬ (c.minAngle ≤ c.calculateAngle ∧ c.calculateAngle ≤ c.maxAngle))
    (hl1 : c.len1 ≠ 0) (hl2 : c.len2 ≠ 0)
    (htol : |c.currentCos - Real.cos c.targetAngle| < 0.001) :
    c.solve = c := by
  have hl1' := hl1
  have hl2' := hl2
  have htol' := htol
  simp only [AngleConstraint.len1] at hl1'
  simp only [AngleConstraint.len2] at hl2'
  simp only [AngleConstraint.currentCos, AngleConstraint.len1, AngleConstraint.len2,
    AngleConstraint.targetAngle] at htol'
  simp only [AngleConstraint.solve]
  rw [if_neg hout, if_neg (not_or.mpr ⟨hl1', hl2'⟩), if_pos htol']

/-- The angle constraint refuting claim C4 as stated: corridor
`[π/2 + 1/2000, π]` around the right-angle configuration, so the angle is
outside the corridor but the cosine gap is below the `0.001` tolerance. -/
noncomputable def angleCex : AngleConstraint :=
  angleRight (Real.pi / 2 + 1 / 2000) Real.pi

/-- Claim C4 as stated is false: `angleCex` satisfies every condition of the
claim (angle outside the corridor, nonzero arms, free `point3`), yet
`solve()` leaves `point3` unchanged — and unchanged differs from the
claimed rotated position. -/
theorem angle_tolerance_counterexample :
    (¬ (angleCex.minAngle ≤ angleCex.calculateAngle ∧
        angleCex.calculateAngle ≤ angleCex.maxAngle)) ∧
    angleCex.len1 ≠ 0 ∧ angleCex.len2 ≠ 0 ∧ angleCex.point3.fixed = false ∧
    angleCex.solve = angleCex ∧
    Vector2D.mk (angleCex.point2.position.x + angleCex.rotatedV2.x)
        (angleCex.point2.position.y + angleCex.rotatedV2.y) ≠
      angleCex.point3.position := by
  have hcalc : angleCex.calculateAngle = Real.pi / 2 := angleRight_calc _ _
  have hcur : angleCex.currentCos = 0 := angleRight_cos _ _
  have hlen1 : angleCex.len1 = 1 := angleRight_len1 _ _
  have hlen2 : angleCex.len2 = 1 := angleRight_len2 _ _
  have hmin : angleCex.minAngle = Real.pi / 2 + 1 / 2000 := rfl
  have hmax : angleCex.maxAngle = Real.pi := rfl
  have hout : ¬ (angleCex.minAngle ≤ angleCex.calculateAngle ∧
      angleCex.calculateAngle ≤ angleCex.maxAngle) := by
    rw [hcalc, hmin, hmax]
    intro h
    have h1 := h.1
    norm_num at h1
  have ht : angleCex.targetAngle = Real.pi / 2 + 1 / 2000 := by
    unfold AngleConstraint.targetAngle
    rw [hcalc, hmin, if_pos (by norm_num)]
  have hsinpos : 0 < Real.sin (1 / 2000) :=
    Real.sin_pos_of_pos_of_lt_pi (by norm_num) (by nlinarith [Real.pi_gt_three])
  have hcos : Real.cos (Real.pi / 2 + 1 / 2000) = -Real.sin (1 / 2000) := by
    rw [show Real.pi / 2 + 1 / 2000 = 1 / 2000 + Real.pi / 2 by ring,
      Real.cos_add_pi_div_two]
  have htol : |angleCex.currentCos - Real.cos angleCex.targetAngle| < 0.001 := by
    rw [hcur, ht, hcos]
    have hs : Real.sin (1 / 2000) < 0.001 :=
      lt_trans (Real.sin_lt (by norm_num)) (by norm_num)
    rw [show (0 : ℝ) - -Real.sin (1 / 2000) = Real.sin (1 / 2000) by ring,
      abs_of_nonneg hsinpos.le]
    exact hs
  have hnoop : angleCex.solve = angleCex :=
    angle_solve_tolerance_noop angleCex hout (by rw [hlen1]; norm_num)
      (by rw [hlen2]; norm_num) htol
  have harg : (Real.pi / 2 + 1 / 2000 - Real.pi / 2) * angleCex.stiffness = 1 / 4000 := by
    have hst : angleCex.stiffness = 0.5 := rfl
    rw [hst]
    ring
  have hrot : angleCex.rotatedV2 = ⟨-Real.sin (1 / 4000), Real.cos (1 / 4000)⟩ := by
    unfold AngleConstraint.rotatedV2
    rw [ht, hcalc, harg]
    norm_num [angleCex, angleRight, Point.make]
  have hsinpos4 : 0 < Real.sin (1 / 4000) :=
    Real.sin_pos_of_pos_of_lt_pi (by norm_num) (by nlinarith [Real.pi_gt_three])
  refine ⟨hout, by rw [hlen1]; norm_num, by rw [hlen2]; norm_num, rfl, hnoop, ?_⟩
  rw [hrot]
  intro h
  have hx := congrArg Vector2D.x h
  simp only [angleCex, angleRight, Point.make] at hx
  norm_num at hx
  nlinarith [hsinpos4, hx]

/-- `DistanceConstraint.solve` never changes the target distance, the
stiffness, or the fixed flags. -/
theorem distance_solve_fields (c : DistanceConstraint) :
    c.solve.distance = c.distance ∧ c.solve.stiffness = c.stiffness ∧
    c.solve.point1.fixed = c.point1.fixed ∧ c.solve.point2.fixed = c.point2.fixed := by
  simp only [DistanceConstraint.solve]
  split_ifs <;> exact ⟨rfl, rfl, rfl, rfl⟩

/-- At zero current distance, `DistanceConstraint.solve` is the identity. -/
theorem distance_solve_zero (c : DistanceConstraint)
    (hd : c.currentDistance = 0) : c.solve = c := by
  have hd' := hd
  simp only [DistanceConstraint.currentDistance] at hd'
  simp only [DistanceConstraint.solve]
  rw [if_pos hd']

/-- One solver call of a both-free constraint at nonzero current distance:
the new current distance is the absolute value of the stiffness-blend of
the old distance toward the target. -/
theorem distance_solve_newDistance (c : DistanceConstraint)
    (h1 : c.point1.fixed = false) (h2 : c.point2.fixed = false)
    (hd : c.currentDistance ≠ 0) :
    c.solve.currentDistance =
      |c.currentDistance + c.stiffness * (c.distance - c.currentDistance)| := by
  obtain ⟨p1, p2, D, s⟩ := c
  obtain ⟨⟨p1x, p1y⟩, pp1, vv1, b1, f1, m1⟩ := p1
  obtain ⟨⟨p2x, p2y⟩, pp2, vv2, b2, f2, m2⟩ := p2
  simp only [DistanceConstraint.currentDistance, DistanceConstraint.solve] at *
  subst h1
  subst h2
  rw [if_neg hd]
  rw [if_pos (by simp)]
  simp only [DistanceConstraint.currentDistance]
  set d := Real.sqrt ((p2x - p1x) * (p2x - p1x) + (p2y - p1y) * (p2y - p1y)) with hdd
  have hsq : d * d = (p2x - p1x) * (p2x - p1x) + (p2y - p1y) * (p2y - p1y) :=
    Real.mul_self_sqrt (by nlinarith [mul_self_nonneg (p2x - p1x), mul_self_nonneg (p2y - p1y)])
  have harg :
      (p2x + (p2x - p1x) * ((D - d) / d) * 0.5 * s - (p1x - (p2x - p1x) * ((D - d) / d) * 0.5 * s)) *
        (p2x + (p2x - p1x) * ((D - d) / d) * 0.5 * s - (p1x - (p2x - p1x) * ((D - d) / d) * 0.5 * s)) +
      (p2y + (p2y - p1y) * ((D - d) / d) * 0.5 * s - (p1y - (p2y - p1y) * ((D - d) / d) * 0.5 * s)) *
        (p2y + (p2y - p1y) * ((D - d) / d) * 0.5 * s - (p1y - (p2y - p1y) * ((D - d) / d) * 0.5 * s)) =
      (d + s * (D - d)) ^ 2 := by
    field_simp
    nlinarith [hsq]
  rw [harg, Real.sqrt_sq_eq_abs]

/-- The current distance is a square root, hence nonnegative. -/
theorem currentDistance_nonneg (c : DistanceConstraint) : 0 ≤ c.currentDistance := by
  simp only [DistanceConstraint.currentDistance]
  exact Real.sqrt_nonneg _

/-- One solver call of a both-free constraint at nonzero current distance
multiplies the distance error by `1 - stiffness`. -/
theorem distance_solve_error_step (c : DistanceConstraint)
    (h1 : c.point1.fixed = false) (h2 : c.point2.fixed = false)
    (hD : 0 ≤ c.distance) (hs0 : 0 ≤ c.stiffness) (hs1 : c.stiffness ≤ 1)
    (hd : c.currentDistance ≠ 0) :
    |c.solve.currentDistance - c.distance| =
      (1 - c.stiffness) * |c.currentDistance - c.distance| := by
  have hdpos : 0 < c.currentDistance :=
    lt_of_le_of_ne (currentDistance_nonneg c) (Ne.symm hd)
  rw [distance_solve_newDistance c h1 h2 hd]
  have hA : 0 ≤ c.currentDistance + c.stiffness * (c.distance - c.currentDistance) := by
    nlinarith
  rw [abs_of_nonneg hA,
    show c.currentDistance + c.stiffness * (c.distance - c.currentDistance) - c.distance =
      (1 - c.stiffness) * (c.currentDistance - c.distance) by ring,
    abs_mul, abs_of_nonneg (by linarith : (0:ℝ) ≤ 1 - c.stiffness)]

/-- Iterating `solve` preserves the target distance, stiffness and fixed
flags. -/
theorem distance_solve_iterate_fields (c : DistanceConstraint) (n : ℕ) :
    (DistanceConstraint.solve^[n] c).distance = c.distance ∧
    (DistanceConstraint.solve^[n] c).stiffness = c.stiffness ∧
    (DistanceConstraint.solve^[n] c).point1.fixed = c.point1.fixed ∧
    (DistanceConstraint.solve^[n] c).point2.fixed = c.point2.fixed := by
  induction n with
  | zero => exact ⟨rfl, rfl, rfl, rfl⟩
  | succ n ih =>
    rw [Function.iterate_succ_apply']
    have hf := distance_solve_fields (DistanceConstraint.solve^[n] c)
    exact ⟨hf.1.trans ih.1, hf.2.1.trans ih.2.1, hf.2.2.1.trans ih.2.2.1,
      hf.2.2.2.trans ih.2.2.2⟩

/-- Claim C5 (amended): for a both-free constraint with `0 ≤ distance` and
stiffness in `[0, 1]`, no `solve()` call increases the distance error
`|currentDistance - distance|`, and as long as the points do not coincide
the error after `n` calls is exactly `(1 - stiffness) ^ n` times the
initial error (so for stiffness in `(0, 1]` it decays geometrically toward
zero; for stiffness `0` or coincident points it merely never increases). -/
theorem distance_convergence (c : DistanceConstraint)
    (h1 : c.point1.fixed = false) (h2 : c.point2.fixed = false)
    (hD : 0 ≤ c.distance) (hs0 : 0 ≤ c.stiffness) (hs1 : c.stiffness ≤ 1) :
    (∀ n : ℕ, |(DistanceConstraint.solve^[n + 1] c).currentDistance - c.distance| ≤
      |(DistanceConstraint.solve^[n] c).currentDistance - c.distance|) ∧
    (c.currentDistance ≠ 0 → ∀ n : ℕ,
      |(DistanceConstraint.solve^[n] c).currentDistance - c.distance| =
        (1 - c.stiffness) ^ n * |c.currentDistance - c.distance|) := by
  constructor
  · intro n
    rw [Function.iterate_succ_apply']
    set cn := DistanceConstraint.solve^[n] c with hcn
    obtain ⟨hfd, hfs, hff1, hff2⟩ := distance_solve_iterate_fields c n
    by_cases hdn : cn.currentDistance = 0
    · rw [distance_solve_zero cn hdn]
    · have hstep := distance_solve_error_step cn (hff1.trans h1) (hff2.trans h2)
        (hfd.symm ▸ hD) (hfs.symm ▸ hs0) (hfs.symm ▸ hs1) hdn
      rw [hfd, hfs] at hstep
      rw [hstep]
      have := abs_nonneg (cn.currentDistance - c.distance)
      nlinarith
  · intro hd0
    have aux : ∀ n : ℕ,
        |(DistanceConstraint.solve^[n] c).currentDistance - c.distance| =
          (1 - c.stiffness) ^ n * |c.currentDistance - c.distance| ∧
        ((DistanceConstraint.solve^[n] c).currentDistance = 0 →
          |(DistanceConstraint.solve^[n] c).currentDistance - c.distance| = 0) := by
      intro n
      induction n with
      | zero => exact ⟨by simp, fun h0 => absurd h0 hd0⟩
      | succ n ih =>
        rw [Function.iterate_succ_apply']
        set cn := DistanceConstraint.solve^[n] c with hcn
        obtain ⟨hfd, hfs, hff1, hff2⟩ := distance_solve_iterate_fields c n
        by_cases hdn : cn.currentDistance = 0
        · rw [distance_solve_zero cn hdn]
          have e0 : |cn.currentDistance - c.distance| = 0 := ih.2 hdn
          refine ⟨?_, fun _ => e0⟩
          rw [e0]
          have : (1 - c.stiffness) ^ n * |c.currentDistance - c.distance| = 0 := by
            rw [← ih.1, e0]
          rw [pow_succ]
          nlinarith [this]
        · have hdnpos : 0 < cn.currentDistance :=
            lt_of_le_of_ne (currentDistance_nonneg cn) (Ne.symm hdn)
          have hstep := distance_solve_error_step cn (hff1.trans h1) (hff2.trans h2)
            (hfd.symm ▸ hD) (hfs.symm ▸ hs0) (hfs.symm ▸ hs1) hdn
          rw [hfd, hfs] at hstep
          refine ⟨?_, ?_⟩
          · rw [hstep, ih.1, pow_succ]
            ring
          · intro h0
            have hnd := distance_solve_newDistance cn (hff1.trans h1) (hff2.trans h2) hdn
            rw [hfd, hfs] at hnd
            rw [h0] at hnd
            have hA0 : cn.currentDistance +
                c.stiffness * (c.distance - cn.currentDistance) = 0 :=
              abs_eq_zero.mp hnd.symm
            have hu : 0 ≤ (1 - c.stiffness) * cn.currentDistance := by
              have := hfs.symm ▸ hs1
              nlinarith
            have hv : 0 ≤ c.stiffness * c.distance := by nlinarith
            have huv : (1 - c.stiffness) * cn.currentDistance +
                c.stiffness * c.distance = 0 := by linarith [hA0]
            have hu0 : (1 - c.stiffness) * cn.currentDistance = 0 := by linarith
            have hs1' : c.stiffness = 1 := by
              rcases mul_eq_zero.mp hu0 with h | h
              · linarith
              · exact absurd h hdn
            have hD0 : c.distance = 0 := by
              have : c.stiffness * c.distance = 0 := by linarith
              rw [hs1'] at this
              linarith
            rw [h0, hD0]
            simp
    exact fun n => (aux n).1


/-- A concrete both-free constraint at distance 5 from its target-10
separation, used by the convergence witness. -/
noncomputable def distW : DistanceConstraint :=
  ⟨Point.make 0 0 PointOptions.none3, Point.make 3 4 PointOptions.none3, 10, 0.5⟩

theorem distW_currentDistance : distW.currentDistance = 5 := by
  norm_num [distW, DistanceConstraint.currentDistance, Point.make]
  rw [show (25 : ℝ) = 5 ^ 2 by norm_num]
  exact Real.sqrt_sq (by norm_num)

/-- Witness for `distance_convergence` at a concrete constraint: points
`(0,0)` and `(3,4)`, target distance `10`, stiffness `0.5`. -/
theorem distance_convergence_witness :
    |(DistanceConstraint.solve^[0 + 1] distW).currentDistance - distW.distance| ≤
      |(DistanceConstraint.solve^[0] distW).currentDistance - distW.distance| ∧
    |(DistanceConstraint.solve^[1] distW).currentDistance - distW.distance| =
      (1 - distW.stiffness) ^ 1 * |distW.currentDistance - distW.distance| := by
  have h := distance_convergence distW rfl rfl (by norm_num [distW])
    (by norm_num [distW]) (by norm_num [distW])
  refine ⟨h.1 0, h.2 ?_ 1⟩
  rw [distW_currentDistance]
  norm_num

/-- A both-free constraint with stiffness `0`: points `(0,0)` and `(1,0)`,
target distance `3`. -/
noncomputable def distCzero : DistanceConstraint :=
  ⟨Point.make 0 0 PointOptions.none3, Point.make 1 0 PointOptions.none3, 3, 0⟩

/-- Claim C5 as stated is false: with stiffness `0` (inside the claimed
`[0,1]` range) `solve()` is the identity, so repeated calls leave the
distance error at `2` forever and never reduce it toward zero. -/
theorem distance_stiffness_zero_counterexample :
    distCzero.point1.fixed = false ∧ distCzero.point2.fixed = false ∧
    0 ≤ distCzero.distance ∧ 0 ≤ distCzero.stiffness ∧ distCzero.stiffness ≤ 1 ∧
    distCzero.solve = distCzero ∧
    |distCzero.currentDistance - distCzero.distance| = 2 ∧ (2 : ℝ) ≠ 0 := by
  have hcd : distCzero.currentDistance = 1 := by
    norm_num [distCzero, DistanceConstraint.currentDistance, Point.make]
  refine ⟨rfl, rfl, by norm_num [distCzero], by norm_num [distCzero],
    by norm_num [distCzero], ?_, ?_, by norm_num⟩
  · norm_num [distCzero, DistanceConstraint.solve, Point.make,
      DistanceConstraint.ext_iff, Point.ext_iff, Vector2D.ext_iff]
  · rw [hcd]
    norm_num [distCzero]

end Loopation
